import Mathlib

/-
Verification of the backend's authentication/session contract against its
natural-language specification.

Shallow embedding conventions:
* Wall-clock instants (Python `datetime.utcnow()`) and timedeltas are integers
  counting seconds, matching the second granularity at which python-jose
  compares the `exp` claim (`calendar.timegm(datetime.utcnow().utctimetuple())`).
* A Python dict of JWT claims is an association list with unique keys,
  `dictGet`/`dictSet` mirroring `dict.get` and `dict.update` (replace in
  place when the key exists, append otherwise, preserving insertion order).
* HMAC signing (python-jose, HS256) is modelled symbolically: an encoded
  token records the payload, the signing key and the algorithm name, and
  verification compares them with the configured values.  This is the
  standard ideal-MAC model: an adversary cannot forge a token for a key it
  does not hold, and signature verification fails exactly on a key or
  algorithm mismatch.  Strings that are not well-formed JWTs at all are the
  `malformed` constructor, which python-jose rejects with `JWTError`.
* Mutation is modelled by explicit state passing: a Python function that
  could mutate a caller-supplied dict returns the caller's dict alongside
  its result, and the process-wide `lru_cache` slot is threaded as an
  explicit `Option` value.
-/

set_option autoImplicit false

/-- Values storable in a JWT claims dictionary as used by this backend:
string claims such as "sub"/"email", and integer claims such as the
numeric timestamp that "exp" becomes on encoding. -/
inductive ClaimValue where
  | str (s : String)
  | int (n : Int)
deriving DecidableEq, Repr

/-- Python `dict.get key`: first (unique) binding of the key, if any. -/
def dictGet (d : List (String × ClaimValue)) (k : String) : Option ClaimValue :=
  match d with
  | [] => none
  | kv :: rest => if kv.1 = k then some kv.2 else dictGet rest k

/-- Python `dict.update` with a single key: replace the binding in place when
the key exists, append it otherwise (insertion order preserved). -/
def dictSet (d : List (String × ClaimValue)) (k : String) (v : ClaimValue) :
    List (String × ClaimValue) :=
  match d with
  | [] => [(k, v)]
  | kv :: rest => if kv.1 = k then (k, v) :: rest else kv :: dictSet rest k v

theorem dictGet_dictSet (d : List (String × ClaimValue)) (k : String) (v : ClaimValue) :
    dictGet (dictSet d k v) k = some v := by
  induction d with
  | nil => simp [dictSet, dictGet]
  | cons kv rest ih =>
      by_cases h : kv.1 = k
      · simp [dictSet, dictGet, h]
      · simp [dictSet, dictGet, h, ih]

theorem dictSet_eq_append (d : List (String × ClaimValue)) (k : String) (v : ClaimValue)
    (h : dictGet d k = none) : dictSet d k v = d ++ [(k, v)] := by
  induction d with
  | nil => simp [dictSet]
  | cons kv rest ih =>
      by_cases hk : kv.1 = k
      · simp [dictGet, hk] at h
      · simp [dictGet, hk] at h
        simp [dictSet, hk, ih h]

/-- Application settings (src/backend/app/core/config.py), restricted to the
fields the verified components read. -/
structure Settings where
  database_url : String
  supabase_url : String
  supabase_key : String
  supabase_service_key : String
  environment : String
  api_v1_prefix : String
  cors_origins : String
  secret_key : String
  algorithm : String
  access_token_expire_minutes : Int
deriving DecidableEq, Repr

/-- Default field values of the Settings class in config.py. -/
def defaultSettings : Settings where
  database_url := "sqlite+aiosqlite:///./app.db"
  supabase_url := ""
  supabase_key := ""
  supabase_service_key := ""
  environment := "development"
  api_v1_prefix := "/v1"
  cors_origins := "http://localhost:5173,http://localhost:3000"
  secret_key := "dev-secret-key-change-in-production"
  algorithm := "HS256"
  access_token_expire_minutes := 30

/-- Symbolic encoded JWT: the payload that was serialised, together with the
key and algorithm name it was signed under (ideal-MAC model). -/
structure SignedToken where
  payload : List (String × ClaimValue)
  key : String
  alg : String
deriving DecidableEq, Repr

/-- Input to token verification: either some well-formed signed token (from
any signer), or a string that does not parse as a JWT at all. -/
inductive TokenInput where
  | signed (t : SignedToken)
  | malformed (raw : String)
deriving DecidableEq, Repr

/-- Python truthiness of the `Optional[timedelta]` argument `expires_delta`:
`None` and `timedelta(0)` are falsy, every other timedelta is truthy. -/
def tdTruthy : Option Int → Bool
  | none => false
  | some d => d != 0

/-- Expiry instant computed inside create_access_token:
`if expires_delta: expire = utcnow() + expires_delta
 else: expire = utcnow() + timedelta(minutes=settings.access_token_expire_minutes)`. -/
def tokenExpiry (s : Settings) (now : Int) (expires_delta : Option Int) : Int :=
  if tdTruthy expires_delta then now + expires_delta.getD 0
  else now + s.access_token_expire_minutes * 60

/-- create_access_token (src/backend/app/core/security.py): copies the
caller's dict (`to_encode = data.copy()`), sets the "exp" claim on the copy,
and signs with the configured secret and algorithm.  The second component is
the caller's dict after the call (state-passing model of mutation). -/
def create_access_token (s : Settings) (now : Int) (data : List (String × ClaimValue))
    (expires_delta : Option Int) : SignedToken × List (String × ClaimValue) :=
  let to_encode := data
  let expire := tokenExpiry s now expires_delta
  let encoded := dictSet to_encode "exp" (ClaimValue.int expire)
  ({ payload := encoded, key := s.secret_key, alg := s.algorithm }, data)

/-- Coercion python-jose applies to the "exp" claim before comparing:
`int(claims["exp"])`, raising JWTClaimsError when that fails.  (Python's
`int` on strings also strips whitespace and accepts a leading plus sign and
inner underscores; those liberalities are not modelled.) -/
def claimInt : ClaimValue → Option Int
  | ClaimValue.int n => some n
  | ClaimValue.str s => s.toInt?

/-- Expiry validation in python-jose `jwt.decode` with zero leeway: a missing
"exp" claim passes, a non-integer one raises JWTClaimsError (modelled as
failure), and an integer one is rejected exactly when `exp < now`. -/
def jose_validate_exp (payload : List (String × ClaimValue)) (now : Int) : Bool :=
  match dictGet payload "exp" with
  | none => true
  | some v =>
    match claimInt v with
    | none => false
    | some e => if e < now then false else true

/-- decode_access_token (src/backend/app/core/security.py): calls
`jose.jwt.decode(token, settings.secret_key, algorithms=[settings.algorithm])`
and returns None on any JWTError.  Failure cases: the string is not a JWT,
the signature does not verify under the configured secret, the header
algorithm is not in the allowed list, or the "exp" claim check fails. -/
def decode_access_token (s : Settings) (now : Int) : TokenInput → Option (List (String × ClaimValue))
  | TokenInput.malformed _ => none
  | TokenInput.signed t =>
    if t.key = s.secret_key ∧ t.alg = s.algorithm then
      if jose_validate_exp t.payload now then some t.payload else none
    else none

/-- C1: for every secret/algorithm configuration, claims dictionary (with no
pre-existing expiry claim) and positive ttl, decoding a token produced by
create_access_token before the ttl has elapsed returns the original claims
plus the appended expiry field. -/
theorem C1_issue_verify_roundtrip (s : Settings) (data : List (String × ClaimValue))
    (ttl t0 t1 : Int) (hexp : dictGet data "exp" = none) (httl : 0 < ttl)
    (hfresh : t1 < t0 + ttl) :
    decode_access_token s t1
        (TokenInput.signed (create_access_token s t0 data (some ttl)).1)
      = some (data ++ [("exp", ClaimValue.int (t0 + ttl))]) := by
  have htruthy : tdTruthy (some ttl) = true := by
    simp [tdTruthy]
    omega
  have hexpiry : tokenExpiry s t0 (some ttl) = t0 + ttl := by
    simp [tokenExpiry, htruthy]
  have hpayload : (create_access_token s t0 data (some ttl)).1.payload
      = dictSet data "exp" (ClaimValue.int (t0 + ttl)) := by
    simp [create_access_token, hexpiry]
  have hvalid : jose_validate_exp (dictSet data "exp" (ClaimValue.int (t0 + ttl))) t1 = true := by
    simp [jose_validate_exp, dictGet_dictSet, claimInt]
    omega
  have happend : dictSet data "exp" (ClaimValue.int (t0 + ttl))
      = data ++ [("exp", ClaimValue.int (t0 + ttl))] :=
    dictSet_eq_append data "exp" (ClaimValue.int (t0 + ttl)) hexp
  rw [happend] at hvalid
  simp [decode_access_token, create_access_token, hexpiry, happend, hvalid]

theorem C1_witness :
    0 < (60 : Int) ∧
    decode_access_token defaultSettings 1030
        (TokenInput.signed
          (create_access_token defaultSettings 1000
            [("sub", ClaimValue.str "abc")] (some 60)).1)
      = some ([("sub", ClaimValue.str "abc")] ++ [("exp", ClaimValue.int 1060)]) :=
  ⟨by decide,
    C1_issue_verify_roundtrip defaultSettings [("sub", ClaimValue.str "abc")] 60 1000 1030
      (by decide) (by decide) (by decide)⟩

/-- C2: decode_access_token fails by returning `none` (the embedding is a
total function into Option, mirroring the `except JWTError: return None`
handler that keeps faults from crossing the API boundary), and it fails in
exactly these cases: the input is not a well-formed JWT, the signature does
not verify (key signed under a different secret, or an algorithm outside the
allowed list), or the expiry claim check fails (elapsed or malformed). -/
theorem C2_decode_failure_characterization (s : Settings) (now : Int) (input : TokenInput) :
    decode_access_token s now input = none ↔
      ((∃ raw, input = TokenInput.malformed raw) ∨
       (∃ t, input = TokenInput.signed t ∧ ¬(t.key = s.secret_key ∧ t.alg = s.algorithm)) ∨
       (∃ t, input = TokenInput.signed t ∧ jose_validate_exp t.payload now = false)) := by
  cases input with
  | malformed raw => simp [decode_access_token]
  | signed t =>
      by_cases hsig : t.key = s.secret_key ∧ t.alg = s.algorithm
      · by_cases hexp : jose_validate_exp t.payload now
        · simp [decode_access_token, hsig, hexp]
        · simp [decode_access_token, hsig, hexp]
      · simp [decode_access_token, hsig]
        push_neg at hsig
        exact Or.inl hsig

/-- C10: create_access_token leaves the caller's claims dictionary exactly as
it was (the expiry claim is written only on the internal copy `to_encode`),
while the token it signs carries the copy with "exp" set. -/
theorem C10_caller_dict_unchanged (s : Settings) (now : Int)
    (data : List (String × ClaimValue)) (expires_delta : Option Int) :
    (create_access_token s now data expires_delta).2 = data ∧
    (create_access_token s now data expires_delta).1.payload
      = dictSet data "exp" (ClaimValue.int (tokenExpiry s now expires_delta)) :=
  ⟨rfl, rfl⟩

/-- C7 counterexample: a token issued with ttl exactly zero does NOT fail to
decode.  Python evaluates `if expires_delta:` and `timedelta(0)` is falsy, so
create_access_token silently substitutes the configured default lifetime
(30 minutes = 1800 s under default settings); decoding 1000 s after issuance
still succeeds although the requested ttl was ≤ 0. -/
theorem C7_counterexample :
    decode_access_token defaultSettings 2000
        (TokenInput.signed
          (create_access_token defaultSettings 1000
            [("sub", ClaimValue.str "u")] (some 0)).1)
      ≠ none := by decide

/-- C7 amended: a token issued with strictly negative ttl fails to decode at
every instant at or after issuance, and any signed token whose integer expiry
claim has elapsed (exp < decode time) fails to decode; a ttl of exactly zero
is treated as absent (Python falsiness of `timedelta(0)`) and yields the
configured default lifetime instead. -/
theorem C7_amended_expiry (s : Settings) :
    (∀ (data : List (String × ClaimValue)) (t0 t1 ttl : Int), ttl < 0 → t0 ≤ t1 →
      decode_access_token s t1
          (TokenInput.signed (create_access_token s t0 data (some ttl)).1) = none) ∧
    (∀ (t : SignedToken) (e t1 : Int),
      dictGet t.payload "exp" = some (ClaimValue.int e) → e < t1 →
      decode_access_token s t1 (TokenInput.signed t) = none) := by
  constructor
  · intro data t0 t1 ttl httl ht
    have htruthy : tdTruthy (some ttl) = true := by
      simp [tdTruthy]
      omega
    have hexpiry : tokenExpiry s t0 (some ttl) = t0 + ttl := by
      simp [tokenExpiry, htruthy]
    have hinvalid : jose_validate_exp (dictSet data "exp" (ClaimValue.int (t0 + ttl))) t1
        = false := by
      simp [jose_validate_exp, dictGet_dictSet, claimInt]
      omega
    simp [decode_access_token, create_access_token, hexpiry, hinvalid]
  · intro t e t1 hget he
    have hinvalid : jose_validate_exp t.payload t1 = false := by
      simp [jose_validate_exp, hget, claimInt]
      omega
    simp [decode_access_token, hinvalid]

theorem C7_amended_witness :
    decode_access_token defaultSettings 1000
        (TokenInput.signed
          (create_access_token defaultSettings 1000 [] (some (-5))).1) = none ∧
    decode_access_token defaultSettings 10
        (TokenInput.signed
          { payload := [("exp", ClaimValue.int 5)],
            key := "other-key", alg := "HS256" }) = none :=
  ⟨(C7_amended_expiry defaultSettings).1 [] 1000 1000 (-5) (by decide) (by decide),
   (C7_amended_expiry defaultSettings).2
      { payload := [("exp", ClaimValue.int 5)], key := "other-key", alg := "HS256" }
      5 10 (by decide) (by decide)⟩

/-- Symbolic bcrypt digest (ideal one-way function model): `bcrypt.hashpw`
embeds the salt in its output and, absent collisions, the digest body
determines the (password, salt) pair.  The model realises this by recording
the salt and, as the digest body, the hashed password itself; real bcrypt
properties beyond injectivity (cost factor, 72-byte truncation) are outside
the model. -/
structure BcryptHash where
  salt : Nat
  body : String
deriving DecidableEq, Repr

/-- Ideal `bcrypt.hashpw password salt`. -/
def hashpw (password : String) (salt : Nat) : BcryptHash :=
  { salt := salt, body := password }

/-- Model of `bcrypt.checkpw`: extract the salt embedded in the stored
digest, recompute, and compare. -/
def checkpw (password : String) (hashed : BcryptHash) : Bool :=
  hashpw password hashed.salt == hashed

/-- Model of `bcrypt.gensalt`: a fresh random salt per call; the randomness
is made explicit as the `entropy` argument. -/
def gensalt (entropy : Nat) : Nat := entropy

/-- get_password_hash (src/backend/app/core/security.py): generate a salt,
hash the password under it. -/
def get_password_hash (password : String) (entropy : Nat) : BcryptHash :=
  hashpw password (gensalt entropy)

/-- verify_password (src/backend/app/core/security.py): bcrypt.checkpw of
the plain password against the stored digest. -/
def verify_password (plain_password : String) (hashed_password : BcryptHash) : Bool :=
  checkpw plain_password hashed_password

/-- C8: hashing the same password under distinct salts yields distinct
digests (non-determinism across calls), yet verification of the original
password always succeeds and verification of any different password always
fails (in the ideal collision-free model of bcrypt). -/
theorem C8_hash_verify_contract :
    (∀ (p : String) (e1 e2 : Nat), e1 ≠ e2 →
      get_password_hash p e1 ≠ get_password_hash p e2) ∧
    (∀ (p : String) (e : Nat), verify_password p (get_password_hash p e) = true) ∧
    (∀ (p q : String) (e : Nat), p ≠ q →
      verify_password q (get_password_hash p e) = false) := by
  refine ⟨?_, ?_, ?_⟩
  · intro p e1 e2 hne hcontra
    exact hne (congrArg BcryptHash.salt hcontra)
  · intro p e
    simp [verify_password, checkpw, get_password_hash, gensalt, hashpw]
  · intro p q e hne
    simp [verify_password, checkpw, get_password_hash, gensalt, hashpw]
    intro h
    exact absurd h.symm hne

theorem C8_witness :
    get_password_hash "hunter2" 0 ≠ get_password_hash "hunter2" 1 ∧
    verify_password "hunter2" (get_password_hash "hunter2" 1) = true ∧
    verify_password "letmein" (get_password_hash "hunter2" 1) = false :=
  ⟨C8_hash_verify_contract.1 "hunter2" 0 1 (by decide),
   C8_hash_verify_contract.2.1 "hunter2" 1,
   C8_hash_verify_contract.2.2 "hunter2" "letmein" 1 (by decide)⟩

/-- Supabase client handle (supabase-py `Client`): constructing it stores the
URL and key; `create_client` performs no network interaction at construction
time, so it is modelled as a record constructor. -/
structure Client where
  url : String
  key : String
deriving DecidableEq, Repr

/-- Model of supabase-py `create_client`. -/
def create_client (url : String) (key : String) : Client :=
  { url := url, key := key }

/-- Error message of SupabaseNotConfiguredError as raised by
get_supabase_client (src/backend/app/dependencies/supabase.py). -/
def supabaseNotConfiguredMsg : String := "Supabase credentials not configured"

/-- Body of get_supabase_client, before the `@lru_cache(maxsize=1)`
decorator: `if not settings.supabase_url or not settings.supabase_key`
(empty string is the only falsy str) raise SupabaseNotConfiguredError, else
construct the client. -/
def get_supabase_client_body (s : Settings) : Except String Client :=
  if s.supabase_url = "" ∨ s.supabase_key = "" then
    Except.error supabaseNotConfiguredMsg
  else
    Except.ok (create_client s.supabase_url s.supabase_key)

/-- get_supabase_client with its `functools.lru_cache(maxsize=1)` slot made
explicit: a cached value is returned as-is; on a miss the body runs, and only
a successful result is stored (lru_cache does not cache raised exceptions,
so a configuration error is raised anew on every call). -/
def get_supabase_client (s : Settings) (cache : Option Client) :
    Except String Client × Option Client :=
  match cache with
  | some c => (Except.ok c, some c)
  | none =>
    match get_supabase_client_body s with
    | Except.error e => (Except.error e, none)
    | Except.ok c => (Except.ok c, some c)

/-- Python `str.lstrip("/")`: drop every leading slash. -/
def lstripSlash (s : String) : String :=
  String.mk (s.toList.dropWhile (fun c => c == '/'))

/-- Response schema of the health endpoint
(src/backend/app/schemas/health.py). -/
structure HealthStatus where
  app : String
  status : String
  environment : String
  supabase_configured : Bool
deriving DecidableEq, Repr

/-- health_check (src/backend/app/api/v1/endpoints/health.py): probes
get_supabase_client, catching only SupabaseNotConfiguredError to set the
boolean flag, and reports the configured prefix (leading slashes stripped),
the literal "ok", and the configured environment name.  The lru_cache slot
is threaded through. -/
def health_check (s : Settings) (cache : Option Client) : HealthStatus × Option Client :=
  let probe := get_supabase_client s cache
  let configured := match probe.1 with
    | Except.ok _ => true
    | Except.error _ => false
  ({ app := lstripSlash ( Settings.api_v1_prefix s),
     status := "ok",
     environment := s.environment,
     supabase_configured := configured }, probe.2)

/-- Reachable states of the lru_cache slot under a fixed configuration:
empty, or holding the client constructed from that configuration (only a
successful construction is ever stored). -/
def cacheReachable (s : Settings) (cache : Option Client) : Prop :=
  cache = none ∨
    (¬s.supabase_url = "" ∧ ¬s.supabase_key = "" ∧
      cache = some (create_client s.supabase_url s.supabase_key))

/-- C6 counterexample: the `app` field of the health record is not a static
service name — it is derived from the configured API prefix, so two
configuration states yield two different `app` values ("v1" under defaults,
"api" here). -/
theorem C6_counterexample :
    (health_check defaultSettings none).1.app ≠
      (health_check { defaultSettings with api_v1_prefix := "/api" } none).1.app := by
  decide

/-- C6 amended: for every configuration state and reachable cache state, the
health endpoint returns status "ok", the configured environment name, the
configured API prefix stripped of leading slashes as the `app` field (not a
static name), and `supabase_configured` true exactly when both the external
service URL and key are non-empty; no network call is modelled because
client construction performs none. -/
theorem C6_health_record (s : Settings) (cache : Option Client)
    (hc : cacheReachable s cache) :
    (health_check s cache).1 =
      { app := lstripSlash ( Settings.api_v1_prefix s),
        status := "ok",
        environment := s.environment,
        supabase_configured := !(s.supabase_url == "") && !(s.supabase_key == "") } := by
  rcases hc with hnone | ⟨hurl, hkey, hsome⟩
  · subst hnone
    by_cases hu : s.supabase_url = ""
    · simp [health_check, get_supabase_client, get_supabase_client_body, hu]
    · by_cases hk : s.supabase_key = ""
      · simp [health_check, get_supabase_client, get_supabase_client_body, hu, hk]
      · simp [health_check, get_supabase_client, get_supabase_client_body, hu, hk]
  · subst hsome
    simp [health_check, get_supabase_client, hurl, hkey]

theorem C6_health_record_witness :
    (health_check defaultSettings none).1 =
      { app := "v1", status := "ok", environment := "development",
        supabase_configured := false } := by
  have h := C6_health_record defaultSettings none (Or.inl rfl)
  rw [h]
  decide

/-- Results of `n` successive calls to the cached get_supabase_client,
starting from a given cache slot state. -/
def clientCallResults (s : Settings) : Nat → Option Client → List (Except String Client)
  | 0, _ => []
  | n + 1, cache =>
    let r := get_supabase_client s cache
    r.1 :: clientCallResults s n r.2

/-- C9: while the external dependency is unconfigured (URL or key empty),
every successive call to get_supabase_client raises the configuration error
anew — the single-slot lru_cache never stores the failure — and the health
endpoint surfaces this only as `supabase_configured = false` in a normally
returned record (the model of health_check is a total function; the error is
caught inside it and never propagated). -/
theorem C9_unconfigured_error_not_cached (s : Settings)
    (h : s.supabase_url = "" ∨ s.supabase_key = "") :
    (∀ n : Nat, clientCallResults s n none
        = List.replicate n (Except.error supabaseNotConfiguredMsg)) ∧
    (health_check s none).1.supabase_configured = false ∧
    (health_check s none).2 = none := by
  have hbody : get_supabase_client_body s = Except.error supabaseNotConfiguredMsg := by
    simp [get_supabase_client_body, h]
  refine ⟨?_, ?_, ?_⟩
  · intro n
    induction n with
    | zero => simp [clientCallResults]
    | succ n ih =>
        simp [clientCallResults, get_supabase_client, hbody, ih, List.replicate]
  · simp [health_check, get_supabase_client, hbody]
  · simp [health_check, get_supabase_client, hbody]

theorem C9_witness :
    clientCallResults defaultSettings 3 none
        = List.replicate 3 (Except.error supabaseNotConfiguredMsg) ∧
    (health_check defaultSettings none).1.supabase_configured = false :=
  ⟨(C9_unconfigured_error_not_cached defaultSettings (Or.inl rfl)).1 3,
   (C9_unconfigured_error_not_cached defaultSettings (Or.inl rfl)).2.1⟩

/-- Hexadecimal digit test used by UUID string validation. -/
def isHexChar (c : Char) : Bool :=
  c.isDigit || (97 ≤ c.toNat && c.toNat ≤ 102) || (65 ≤ c.toNat && c.toNat ≤ 70)

/-- Test for the two curly-brace characters (code points 123 and 125). -/
def isBraceChar (c : Char) : Bool :=
  c.toNat == 123 || c.toNat == 125

/-- Python `str.strip` with the two brace characters: drop them from both
ends. -/
def stripBraces (l : List Char) : List Char :=
  ((l.dropWhile isBraceChar).reverse.dropWhile isBraceChar).reverse

/-- Fuel-driven worker for `replaceChars`; the fuel (initially the length of
the list) makes the recursion structural so that it reduces in the kernel. -/
def replaceCharsAux (pat rep : List Char) : Nat → List Char → List Char
  | 0, l => l
  | _, [] => []
  | fuel + 1, c :: rest =>
    if 0 < pat.length && pat.isPrefixOf (c :: rest) then
      rep ++ replaceCharsAux pat rep fuel ((c :: rest).drop pat.length)
    else
      c :: replaceCharsAux pat rep fuel rest

/-- Python `str.replace` for a non-empty pattern: replace non-overlapping
occurrences left to right. -/
def replaceChars (pat rep l : List Char) : List Char :=
  replaceCharsAux pat rep l.length l

/-- Validity of a UUID string, modelled from the CPython `uuid.UUID(hex=...)`
constructor called in get_current_user: remove every "urn:" and "uuid:"
substring, strip surrounding braces, remove dashes, and require exactly 32
hexadecimal digits.  (The extra liberality of Python `int(_, 16)` — an
optional sign and inner underscores — is not modelled.) -/
def isValidUUIDString (s : String) : Bool :=
  let h1 := replaceChars "urn:".toList [] s.toList
  let h2 := replaceChars "uuid:".toList [] h1
  let h3 := (stripBraces h2).filter (fun c => !(c == '-'))
  h3.length == 32 && h3.all isHexChar

/-- User record (src/backend/app/models/user.py), restricted to the fields
the resolvers read. -/
structure User where
  id : String
  email : String
  name : String
  role : String
  hashed_password : Option String
deriving DecidableEq, Repr

/-- Outcome other than a normal return of a FastAPI dependency: an
HTTPException with status, detail and headers, or an uncaught Python
exception escaping the dependency (named by its class). -/
inductive DepError where
  | http (status : Nat) (detail : String) (headers : List (String × String))
  | pythonError (exc : String)
deriving DecidableEq, Repr

/-- Python truthiness of a claim value (`if not user_id_str`): the empty
string and the integer zero are falsy. -/
def pyFalsy : ClaimValue → Bool
  | ClaimValue.str s => s == ""
  | ClaimValue.int n => n == 0

/-- get_current_user (src/backend/app/api/v1/deps.py), Tier 0: with no
bearer credentials return None; otherwise decode the token (401 with a
Bearer challenge on failure), require a truthy "sub" claim (401), parse it
as a UUID catching only ValueError (401 on a malformed string).  A non-string
truthy "sub" reaches `UUID(user_id_str)` and raises AttributeError, which the
`except ValueError` clause does not catch.  The storage lookup is commented
out in the source, so every successful path returns None. -/
def get_current_user (s : Settings) (now : Int) (credentials : Option TokenInput) :
    Except DepError (Option User) :=
  match credentials with
  | none => Except.ok none
  | some token =>
    match decode_access_token s now token with
    | none =>
        Except.error (DepError.http 401 "Invalid authentication credentials"
          [("WWW-Authenticate", "Bearer")])
    | some payload =>
      match dictGet payload "sub" with
      | none =>
          Except.error (DepError.http 401 "Invalid token payload"
            [("WWW-Authenticate", "Bearer")])
      | some v =>
        if pyFalsy v then
          Except.error (DepError.http 401 "Invalid token payload"
            [("WWW-Authenticate", "Bearer")])
        else
          match v with
          | ClaimValue.str user_id_str =>
            if isValidUUIDString user_id_str then
              Except.ok none
            else
              Except.error (DepError.http 401 "Invalid user ID in token"
                [("WWW-Authenticate", "Bearer")])
          | ClaimValue.int _ => Except.error (DepError.pythonError "AttributeError")

/-- get_current_active_user (src/backend/app/api/v1/deps.py), Tier 1: pure
composition over Tier 0's outcome — a failure below propagates unchanged, an
absent identity becomes 401 "Not authenticated", a present identity is
returned as-is.  The credentials are not re-parsed: only Tier 0's result is
consumed. -/
def get_current_active_user (current_user : Except DepError (Option User)) :
    Except DepError User :=
  match current_user with
  | Except.error e => Except.error e
  | Except.ok none =>
      Except.error (DepError.http 401 "Not authenticated"
        [("WWW-Authenticate", "Bearer")])
  | Except.ok (some u) => Except.ok u

/-- get_current_admin_user (src/backend/app/api/v1/deps.py), Tier 2: pure
composition over Tier 1's outcome — a failure below propagates unchanged, an
identity whose role is not exactly "admin" becomes 403, an admin identity is
returned unchanged. -/
def get_current_admin_user (current_user : Except DepError User) :
    Except DepError User :=
  match current_user with
  | Except.error e => Except.error e
  | Except.ok u =>
    if u.role != "admin" then
      Except.error (DepError.http 403 "Insufficient permissions. Admin role required." [])
    else
      Except.ok u

/-- Tier 0 → Tier 1 dependency chain as FastAPI resolves it for a request. -/
def activeUserChain (s : Settings) (now : Int) (credentials : Option TokenInput) :
    Except DepError User :=
  get_current_active_user (get_current_user s now credentials)

/-- Tier 0 → Tier 1 → Tier 2 dependency chain. -/
def adminUserChain (s : Settings) (now : Int) (credentials : Option TokenInput) :
    Except DepError User :=
  get_current_admin_user (activeUserChain s now credentials)

/-- Status code of a dependency outcome, when it is an HTTP error. -/
def errStatus {α : Type} : Except DepError α → Option Nat
  | Except.error (DepError.http st _ _) => some st
  | _ => none

/-- Well-typedness of the "sub" claim: not an integer claim.  Every token
this backend issues carries a string subject; an integer subject would make
the Python code crash with an uncaught AttributeError instead of any of the
behaviors claimed for Tier 0. -/
def subIsStr : Option ClaimValue → Bool
  | some (ClaimValue.int _) => false
  | _ => true

/-- Hypothesis domain for the Tier 0 claims: if the credentials decode, the
"sub" claim (when present) is a string claim. -/
def credsSubOK (s : Settings) (now : Int) (credentials : Option TokenInput) : Bool :=
  match credentials with
  | none => true
  | some token =>
    match decode_access_token s now token with
    | none => true
    | some payload => subIsStr (dictGet payload "sub")

/-- Acceptance condition of Tier 0 for a presented token: it decodes under
the configured secret and algorithm, and carries a truthy string "sub" claim
that is a valid UUID. -/
def tier0TokenAccepted (s : Settings) (now : Int) (token : TokenInput) : Bool :=
  match decode_access_token s now token with
  | none => false
  | some payload =>
    match dictGet payload "sub" with
    | some (ClaimValue.str u) => !(u == "") && isValidUUIDString u
    | _ => false

/-- C3: over credentials whose decoded "sub" claim is well-typed (a string,
as in every token this backend issues), Tier 0 is a three-way case split —
no credentials resolve to no identity without error; a presented token the
acceptance condition rejects yields exactly a 401 authentication error with
a WWW-Authenticate: Bearer challenge and one of the three machine-checkable
detail strings; an accepted token still resolves to no identity because the
storage lookup is stubbed out. -/
theorem C3_tier0_three_way (s : Settings) (now : Int) (credentials : Option TokenInput)
    (hw : credsSubOK s now credentials = true) :
    (credentials = none → get_current_user s now credentials = Except.ok none) ∧
    (∀ token, credentials = some token →
      (tier0TokenAccepted s now token = true →
        get_current_user s now credentials = Except.ok none) ∧
      (tier0TokenAccepted s now token = false →
        ∃ detail,
          get_current_user s now credentials
            = Except.error (DepError.http 401 detail [("WWW-Authenticate", "Bearer")]) ∧
          (detail = "Invalid authentication credentials" ∨
           detail = "Invalid token payload" ∨
           detail = "Invalid user ID in token"))) := by
  cases credentials with
  | none =>
      refine ⟨fun _ => rfl, ?_⟩
      intro token h
      exact absurd h (by simp)
  | some token0 =>
      refine ⟨fun h => by simp at h, ?_⟩
      intro token h
      have htok : token0 = token := by
        injection h
      subst htok
      cases hdec : decode_access_token s now token0 with
      | none =>
          constructor
          · intro hacc
            simp [tier0TokenAccepted, hdec] at hacc
          · intro _
            refine ⟨"Invalid authentication credentials", ?_, Or.inl rfl⟩
            simp [get_current_user, hdec]
      | some payload =>
          have hsubstr : subIsStr (dictGet payload "sub") = true := by
            simpa [credsSubOK, hdec] using hw
          cases hsub : dictGet payload "sub" with
          | none =>
              constructor
              · intro hacc
                simp [tier0TokenAccepted, hdec, hsub] at hacc
              · intro _
                refine ⟨"Invalid token payload", ?_, Or.inr (Or.inl rfl)⟩
                simp [get_current_user, hdec, hsub]
          | some v =>
              cases v with
              | int n =>
                  rw [hsub] at hsubstr
                  simp [subIsStr] at hsubstr
              | str u =>
                  by_cases hu : u = ""
                  · subst hu
                    constructor
                    · intro hacc
                      simp [tier0TokenAccepted, hdec, hsub] at hacc
                    · intro _
                      refine ⟨"Invalid token payload", ?_, Or.inr (Or.inl rfl)⟩
                      simp [get_current_user, hdec, hsub, pyFalsy]
                  · by_cases hvalid : isValidUUIDString u
                    · constructor
                      · intro _
                        simp [get_current_user, hdec, hsub, pyFalsy, hu, hvalid]
                      · intro hacc
                        simp [tier0TokenAccepted, hdec, hsub, hu, hvalid] at hacc
                    · constructor
                      · intro hacc
                        simp [tier0TokenAccepted, hdec, hsub, hu, hvalid] at hacc
                      · intro _
                        refine ⟨"Invalid user ID in token", ?_, Or.inr (Or.inr rfl)⟩
                        simp [get_current_user, hdec, hsub, pyFalsy, hu, hvalid]

/-- Token signed under the default configuration with a valid-UUID subject,
not expired before instant 100. -/
def validSubToken : SignedToken :=
  (create_access_token defaultSettings 0
    [("sub", ClaimValue.str "12345678-1234-1234-1234-123456789abc")] (some 100)).1

theorem C3_witness :
    get_current_user defaultSettings 50 (some (TokenInput.signed validSubToken))
      = Except.ok none ∧
    get_current_user defaultSettings 50 none = Except.ok none :=
  ⟨((C3_tier0_three_way defaultSettings 50 (some (TokenInput.signed validSubToken))
      (by decide)).2 (TokenInput.signed validSubToken) rfl).1 (by decide),
   (C3_tier0_three_way defaultSettings 50 none (by decide)).1 rfl⟩

/-- C4: Tier 1 propagates a lower-tier failure unchanged, turns an absent
identity into exactly a 401 "Not authenticated" challenge error, and returns
a present identity as-is; Tier 2 propagates a lower-tier failure unchanged,
rejects any identity whose role is not the string "admin" with exactly a 403
error, and returns an admin identity unchanged.  Each tier consumes only the
outcome of the tier below it, never the raw credentials. -/
theorem C4_tier_composition :
    (∀ e, get_current_active_user (Except.error e) = Except.error e) ∧
    (get_current_active_user (Except.ok none)
      = Except.error (DepError.http 401 "Not authenticated"
          [("WWW-Authenticate", "Bearer")])) ∧
    (∀ u, get_current_active_user (Except.ok (some u)) = Except.ok u) ∧
    (∀ e, get_current_admin_user (Except.error e) = Except.error e) ∧
    (∀ u, ¬u.role = "admin" → get_current_admin_user (Except.ok u)
      = Except.error (DepError.http 403
          "Insufficient permissions. Admin role required." [])) ∧
    (∀ u, u.role = "admin" → get_current_admin_user (Except.ok u) = Except.ok u) := by
  refine ⟨fun e => rfl, rfl, fun u => rfl, fun e => rfl, ?_, ?_⟩
  · intro u hrole
    simp [get_current_admin_user, hrole]
  · intro u hrole
    simp [get_current_admin_user, hrole]

/-- Sample non-admin identity. -/
def learnerUser : User :=
  { id := "8f14e45f-ceea-467f-a34e-b5e513282f1b", email := "learner@example.com",
    name := "Learner", role := "learner", hashed_password := none }

/-- Sample admin identity. -/
def adminUser : User :=
  { id := "9f14e45f-ceea-467f-a34e-b5e513282f1c", email := "admin@example.com",
    name := "Admin", role := "admin", hashed_password := none }

theorem C4_witness :
    get_current_admin_user (Except.ok learnerUser)
      = Except.error (DepError.http 403
          "Insufficient permissions. Admin role required." []) ∧
    get_current_admin_user (Except.ok adminUser) = Except.ok adminUser :=
  ⟨C4_tier_composition.2.2.2.2.1 learnerUser (by decide),
   C4_tier_composition.2.2.2.2.2 adminUser rfl⟩

theorem gcu_shape (s : Settings) (now : Int) (credentials : Option TokenInput) :
    get_current_user s now credentials = Except.ok none ∨
    ∃ e, get_current_user s now credentials = Except.error e := by
  cases credentials with
  | none => exact Or.inl rfl
  | some token =>
      cases hdec : decode_access_token s now token with
      | none =>
          right
          simp [get_current_user, hdec]
      | some payload =>
          cases hsub : dictGet payload "sub" with
          | none =>
              right
              simp [get_current_user, hdec, hsub]
          | some v =>
              by_cases hf : pyFalsy v = true
              · right
                simp [get_current_user, hdec, hsub, hf]
              · cases v with
                | str u =>
                    by_cases hvalid : isValidUUIDString u
                    · exact Or.inl (by simp [get_current_user, hdec, hsub, hf, hvalid])
                    · right
                      simp [get_current_user, hdec, hsub, hf, hvalid]
                | int n =>
                    right
                    simp [get_current_user, hdec, hsub, hf]

theorem gcu_http401 (s : Settings) (now : Int) (credentials : Option TokenInput)
    (hw : credsSubOK s now credentials = true) :
    get_current_user s now credentials = Except.ok none ∨
    ∃ d, get_current_user s now credentials
        = Except.error (DepError.http 401 d [("WWW-Authenticate", "Bearer")]) := by
  cases credentials with
  | none => exact Or.inl rfl
  | some token =>
      cases hdec : decode_access_token s now token with
      | none =>
          right
          simp [get_current_user, hdec]
      | some payload =>
          have hsubstr : subIsStr (dictGet payload "sub") = true := by
            simpa [credsSubOK, hdec] using hw
          cases hsub : dictGet payload "sub" with
          | none =>
              right
              simp [get_current_user, hdec, hsub]
          | some v =>
              cases v with
              | int n =>
                  rw [hsub] at hsubstr
                  simp [subIsStr] at hsubstr
              | str u =>
                  by_cases hf : pyFalsy (ClaimValue.str u) = true
                  · right
                    simp [get_current_user, hdec, hsub, hf]
                  · by_cases hvalid : isValidUUIDString u
                    · exact Or.inl (by simp [get_current_user, hdec, hsub, hf, hvalid])
                    · right
                      simp [get_current_user, hdec, hsub, hf, hvalid]

/-- C5: in this snapshot Tier 0 never resolves an identity (every non-error
path returns none), so on the well-typed-subject domain Tier 1 answers 401
on every request — including one carrying a fully valid token — and Tier 2
never reaches its success branch on any input whatsoever. -/
theorem C5_no_identity_ever (s : Settings) (now : Int) (credentials : Option TokenInput) :
    (∀ u, get_current_user s now credentials ≠ Except.ok (some u)) ∧
    (credsSubOK s now credentials = true →
      errStatus (activeUserChain s now credentials) = some 401) ∧
    (∀ u, adminUserChain s now credentials ≠ Except.ok u) := by
  refine ⟨?_, ?_, ?_⟩
  · intro u hcontra
    rcases gcu_shape s now credentials with h | ⟨e, h⟩
    · rw [h] at hcontra
      simp at hcontra
    · rw [h] at hcontra
      simp at hcontra
  · intro hw
    rcases gcu_http401 s now credentials hw with h | ⟨d, h⟩
    · simp [activeUserChain, h, get_current_active_user, errStatus]
    · simp [activeUserChain, h, get_current_active_user, errStatus]
  · intro u hcontra
    rcases gcu_shape s now credentials with h | ⟨e, h⟩
    · simp [adminUserChain, activeUserChain, h, get_current_active_user,
        get_current_admin_user] at hcontra
    · simp [adminUserChain, activeUserChain, h, get_current_active_user,
        get_current_admin_user] at hcontra

theorem C5_witness :
    errStatus (activeUserChain defaultSettings 50
        (some (TokenInput.signed validSubToken))) = some 401 :=
  (C5_no_identity_ever defaultSettings 50
    (some (TokenInput.signed validSubToken))).2.1 (by decide)
